import Mathlib

/-!
Shallow embedding of the environment-reconciliation core of the
`osm-demo` repository (Python): the command runner
(`src/utils/commands.py`), the registry lifecycle controller
(`src/utils/docker_utils.py`), the configuration record
(`src/utils/config.py`), the environment manager
(`src/core/environment.py`) and the example lister
(`src/core/demo.py`).

External effects (subprocess execution, network fetches, file writes,
sleeps) are modelled by an explicit oracle for the outside world plus an
effect trace threaded through every operation.  The oracle for
subprocess outcomes is indexed by a clock that advances once per real
subprocess execution, so time-varying behaviour (e.g. a health probe
that later succeeds) is expressible.  Dry-run mode performs no
subprocess execution and leaves the trace untouched, exactly as
`CommandRunner.run` does in the source.
-/

namespace OcmDemo

/-- Result record of `subprocess.run` / the synthesized dry-run result
(`subprocess.CompletedProcess`). -/
structure CompletedProcess where
  args : List String
  returncode : Int
  stdout : String
  stderr : String
deriving BEq, DecidableEq, Repr

/-- What the operating system does for one subprocess invocation:
either the program runs to completion with an exit code and captured
streams, or the program cannot be located (`FileNotFoundError`). -/
inductive ExecOutcome where
  | completed (returncode : Int) (stdout stderr : String)
  | notFound (msg : String)
deriving BEq, DecidableEq, Repr

/-- Outcome of `CommandRunner.run`: a returned `CompletedProcess`, or a
raised `subprocess.CalledProcessError` carrying exit code, command and
message. -/
inductive RunResult where
  | ok (cp : CompletedProcess)
  | raised (returncode : Int) (cmd : List String) (msg : String)
deriving BEq, DecidableEq, Repr

/-- A raised Python exception that escapes a method
(`subprocess.CalledProcessError` contents). -/
structure PyErr where
  returncode : Int
  cmd : List String
  msg : String
deriving BEq, DecidableEq, Repr

/-- Externally observable side effects. -/
inductive Effect where
  | execProc (cmd : List String)
  | sleep (seconds : Nat)
  | urlopen (url : String)
  | fileWrite (path : String)
  | makedirs (dir : String)
  | rename (src dst : String)
  | chmod (path : String)
deriving BEq, DecidableEq, Repr

/-- Execution state: a clock counting real subprocess executions, and
the trace of external effects performed so far. -/
structure ExecState where
  clock : Nat
  trace : List Effect
deriving BEq, DecidableEq, Repr

/-- The subprocess oracle: what the system would do for a given command
at a given clock instant. -/
abbrev Sys := Nat → List String → ExecOutcome

/-- Model of `str(subprocess.CalledProcessError(...))` as seen by
`except Exception as e: ... str(e)`. -/
def cpeStr (rc : Int) (cmd : List String) : String :=
  "Command " ++ toString cmd ++ " returned non-zero exit status " ++ toString rc ++ "."

/-- Model of `CommandRunner.run` (src/utils/commands.py:40-114).  In dry-run
mode it logs and returns a synthetic success without touching the
system.  Otherwise it executes the command: a completed process is
returned unless `check` is set and the exit code is non-zero, in which
case `CalledProcessError` is raised (logged, then re-raised); a
`FileNotFoundError` is converted into a raised `CalledProcessError`
with exit code 127. -/
def CommandRunner.run (dryRun : Bool) (sys : Sys) (check : Bool)
    (cmd : List String) (s : ExecState) : RunResult × ExecState :=
  if dryRun then
    (.ok ⟨cmd, 0, "", ""⟩, s)
  else
    let s' : ExecState := ⟨s.clock + 1, s.trace ++ [.execProc cmd]⟩
    match sys s.clock cmd with
    | .completed rc out err =>
        if check && rc != 0 then (.raised rc cmd err, s')
        else (.ok ⟨cmd, rc, out, err⟩, s')
    | .notFound msg => (.raised 127 cmd msg, s')

/-- Model of `CommandRunner.run_with_output` (src/utils/commands.py:116-137):
runs with `check=False`, returns `(exit_code, stdout, stderr)`; any
exception is caught and mapped to `(1, '', str(e))`. -/
def CommandRunner.runWithOutput (dryRun : Bool) (sys : Sys)
    (cmd : List String) (s : ExecState) : (Int × String × String) × ExecState :=
  match CommandRunner.run dryRun sys false cmd s with
  | (.ok cp, s') => ((cp.returncode, cp.stdout, cp.stderr), s')
  | (.raised rc c _, s') => ((1, "", cpeStr rc c), s')

/-- Configuration record (src/utils/config.py).  `namespace` is a Lean
keyword, hence the trailing underscore. -/
structure Config where
  registry_port : Nat := 5001
  registry_name : String := "local-registry"
  registry_host : String := "localhost"
  cluster_name : String := "ocm-demo"
  namespace_ : String := "ocm-demos"
  demo_duration : Nat := 300
  project_root : Option String := none
deriving BEq, DecidableEq, Repr

/-- Model of `Config.registry_url` (src/utils/config.py:53-56). -/
def Config.registry_url (c : Config) : String :=
  c.registry_host ++ ":" ++ toString c.registry_port

/-- Python `x or default` for an optional int argument: `None` and `0`
are falsy. -/
def pyOrNat (o : Option Nat) (d : Nat) : Nat :=
  match o with
  | some v => if v = 0 then d else v
  | none => d

/-- Python `x or default` for an optional string argument: `None` and
the empty string are falsy. -/
def pyOrStr (o : Option String) (d : String) : String :=
  match o with
  | some v => if v = "" then d else v
  | none => d

/-- One release asset from the GitHub release-metadata endpoint. -/
structure Asset where
  name : String
  browser_download_url : String
deriving BEq, DecidableEq, Repr

/-- Release metadata returned by the GitHub API. -/
structure Release where
  tag_name : String
  assets : List Asset
deriving BEq, DecidableEq, Repr

/-- The oracle for everything outside the process: subprocess
behaviour, search-path contents (`shutil.which`), network fetches
(`urllib.request.urlopen` of the metadata endpoint / of a download
URL), host platform strings, and the paths the installer computes. -/
structure EnvOracle where
  sys : Sys
  pathHas : String → Bool
  net : String → Except String Release
  fetch : String → Except String Unit
  osName : String
  arch : String
  tmpPath : String
  installDir : String

/-- Append one effect to the trace. -/
def ExecState.eff (s : ExecState) (e : Effect) : ExecState :=
  ⟨s.clock, s.trace ++ [e]⟩

/-!
Python string primitives, implemented structurally over `String.data`
so that every concrete instance reduces inside the kernel (the core
`String` operations are defined by well-founded recursion on byte
positions and do not).
-/

/-- The whitespace characters stripped by Python `str.strip()`. -/
def pyIsSpace (c : Char) : Bool :=
  c == ' ' || c == '\t' || c == '\n' || c == '\x0d' || c == '\x0b' || c == '\x0c'

/-- Python `str.strip()`: drop leading and trailing whitespace. -/
def pyStrip (s : String) : String :=
  ⟨(((s.data.dropWhile pyIsSpace).reverse.dropWhile pyIsSpace).reverse)⟩

/-- Split a character list at every occurrence of `c` (the splitter
itself is dropped); the empty list yields one empty piece, matching
Python `split`. -/
def splitOnChar (c : Char) : List Char → List (List Char)
  | [] => [[]]
  | x :: xs =>
      let r := splitOnChar c xs
      if x == c then [] :: r
      else
        match r with
        | [] => [[x]]
        | h :: t => (x :: h) :: t

/-- Python `s.split(sep)` for a single-character separator (the only form
the source uses, with `sep` = newline). -/
def pySplitOn (s : String) (c : Char) : List String :=
  (splitOnChar c s.data).map (fun l => ⟨l⟩)

/-- Python `s.startswith(pat)`. -/
def pyStartsWith (s pat : String) : Bool :=
  pat.data.isPrefixOf s.data

/-- Does `pat` occur as a contiguous sublist of `s`? -/
def charsContains (pat : List Char) : List Char → Bool
  | [] => pat.isEmpty
  | c :: rest => pat.isPrefixOf (c :: rest) || charsContains pat rest

/-- Python substring test `pat in s`. -/
def strContains (s pat : String) : Bool :=
  charsContains pat.data s.data

/-- Lexicographic (code-point) comparison of character lists: the order
Python uses to compare strings. -/
def charsLe : List Char → List Char → Bool
  | [], _ => true
  | _ :: _, [] => false
  | a :: xs, b :: ys =>
      if a < b then true
      else if a = b then charsLe xs ys
      else false

/-- Python string comparison `a <= b`. -/
def pyLe (a b : String) : Bool :=
  charsLe a.data b.data

/-- Insert into a list sorted by `pyLe` (the helper of the model of
Python `sorted`). -/
def orderedInsertPy (x : String) : List String → List String
  | [] => [x]
  | y :: ys => if pyLe x y then x :: y :: ys else y :: orderedInsertPy x ys

/-- Model of Python `sorted` on strings: insertion sort by `pyLe`.
Over a linear order the sorted rearrangement of a list is unique, so
any correct sort is a faithful model of `sorted`. -/
def sortedPy : List String → List String
  | [] => []
  | x :: xs => orderedInsertPy x (sortedPy xs)

/-- The GitHub command for listing running container names
(src/utils/docker_utils.py:148-152). -/
def psNamesCmd : List String :=
  ["docker", "ps", "--format", "\x7b\x7b.Names\x7d\x7d"]

/-- The health-probe command (src/utils/docker_utils.py:177-180). -/
def curlCmd (port : Nat) : List String :=
  ["curl", "-f", "-s", "http://localhost:" ++ toString port ++ "/v2/"]

/-- The port-cleanup listing command (src/utils/docker_utils.py:196-200). -/
def psPortCmd (port : Nat) : List String :=
  ["docker", "ps", "-a", "--filter", "publish=" ++ toString port,
   "--format", "\x7b\x7b.ID\x7d\x7d"]

/-- The container launch command (src/utils/docker_utils.py:82-87). -/
def dockerRunCmd (port : Nat) (name : String) : List String :=
  ["docker", "run", "-d", "-p", toString port ++ ":5000", "--name", name, "registry:2"]

/-- Model of `DockerManager.check_docker_available`
(src/utils/docker_utils.py:29-51): `command_exists('docker')` then
`docker info` with `check=False`; any exception yields `False`. -/
def checkDockerAvailable (dryRun : Bool) (w : EnvOracle) (s : ExecState) :
    Bool × ExecState :=
  if !w.pathHas "docker" then (false, s)
  else
    match CommandRunner.run dryRun w.sys false ["docker", "info"] s with
    | (.ok cp, s') => (cp.returncode == 0, s')
    | (.raised _ _ _, s') => (false, s')

/-- Model of `DockerManager.is_registry_running`
(src/utils/docker_utils.py:135-161): list running container names and
test membership of `name` in the newline-split, stripped stdout; any
failure or exception yields `False`. -/
def isRegistryRunning (dryRun : Bool) (w : EnvOracle) (cfg : Config)
    (nameArg : Option String) (s : ExecState) : Bool × ExecState :=
  let name := pyOrStr nameArg cfg.registry_name
  match CommandRunner.run dryRun w.sys false psNamesCmd s with
  | (.ok cp, s') =>
      if cp.returncode == 0 then
        ((pySplitOn (pyStrip cp.stdout) '\n').contains name, s')
      else (false, s')
  | (.raised _ _ _, s') => (false, s')

/-- Model of `DockerManager.is_registry_healthy`
(src/utils/docker_utils.py:163-185): curl the `/v2/` endpoint with
`check=False`; healthy iff exit code 0; any exception yields `False`. -/
def isRegistryHealthy (dryRun : Bool) (w : EnvOracle) (cfg : Config)
    (portArg : Option Nat) (s : ExecState) : Bool × ExecState :=
  let port := pyOrNat portArg cfg.registry_port
  match CommandRunner.run dryRun w.sys false (curlCmd port) s with
  | (.ok cp, s') => (cp.returncode == 0, s')
  | (.raised _ _ _, s') => (false, s')

/-- Model of `DockerManager.cleanup_registry_port`
(src/utils/docker_utils.py:187-210): list containers publishing the
port and force-remove each listed id; exceptions are swallowed. -/
def cleanupRegistryPort (dryRun : Bool) (w : EnvOracle) (port : Nat)
    (s : ExecState) : ExecState :=
  match CommandRunner.run dryRun w.sys false (psPortCmd port) s with
  | (.ok cp, s') =>
      if cp.returncode == 0 && pyStrip cp.stdout != "" then
        (pySplitOn (pyStrip cp.stdout) '\n').foldl
          (fun acc cid =>
            if cid ≠ "" then
              (CommandRunner.run dryRun w.sys false ["docker", "rm", "-f", cid] acc).2
            else acc) s'
      else s'
  | (.raised _ _ _, s') => s'

/-- The health-poll loop of `start_registry`
(src/utils/docker_utils.py:93-97): up to `fuel` probes, sleeping one
second after each failed probe. -/
def healthWait (dryRun : Bool) (w : EnvOracle) (cfg : Config) (port : Nat) :
    Nat → ExecState → Bool × ExecState
  | 0, s => (false, s)
  | n + 1, s =>
      let r := isRegistryHealthy dryRun w cfg (some port) s
      if r.1 then (true, r.2)
      else healthWait dryRun w cfg port n (r.2.eff (.sleep 1))

/-- Model of `DockerManager.start_registry` (src/utils/docker_utils.py:53-107).
Resolves port and name through Python `or`-defaulting, short-circuits
when the named container is already running, otherwise cleans the port,
force-removes the same-named container (this call sits outside the
`try` block, so a not-found error escapes), launches the container and
polls health for up to 30 one-second-spaced attempts. -/
def startRegistry (dryRun : Bool) (w : EnvOracle) (cfg : Config)
    (portArg : Option Nat) (nameArg : Option String) (s : ExecState) :
    Except PyErr Bool × ExecState :=
  let port := pyOrNat portArg cfg.registry_port
  let name := pyOrStr nameArg cfg.registry_name
  let r0 := isRegistryRunning dryRun w cfg (some name) s
  if r0.1 then (.ok true, r0.2)
  else
    let s2 := cleanupRegistryPort dryRun w port r0.2
    match CommandRunner.run dryRun w.sys false ["docker", "rm", "-f", name] s2 with
    | (.raised rc c m, s3) => (.error ⟨rc, c, m⟩, s3)
    | (.ok _, s3) =>
        match CommandRunner.run dryRun w.sys true (dockerRunCmd port name) s3 with
        | (.raised _ _ _, s4) => (.ok false, s4)
        | (.ok cp, s4) =>
            if cp.returncode == 0 then
              let r := healthWait dryRun w cfg port 30 s4
              (.ok r.1, r.2)
            else (.ok false, s4)

/-- Model of `DockerManager.stop_registry` (src/utils/docker_utils.py:109-133):
best-effort `docker stop` and `docker rm` with `check=False`; overall
success iff no exception surfaced. -/
def stopRegistry (dryRun : Bool) (w : EnvOracle) (cfg : Config)
    (nameArg : Option String) (s : ExecState) : Bool × ExecState :=
  let name := pyOrStr nameArg cfg.registry_name
  match CommandRunner.run dryRun w.sys false ["docker", "stop", name] s with
  | (.raised _ _ _, s1) => (false, s1)
  | (.ok _, s1) =>
      match CommandRunner.run dryRun w.sys false ["docker", "rm", name] s1 with
      | (.raised _ _ _, s2) => (false, s2)
      | (.ok _, s2) => (true, s2)

/-- The registry status record (src/utils/docker_utils.py:222-229). -/
structure RegistryStatus where
  name : String
  port : Nat
  url : String
  running : Bool
  healthy : Bool
  docker_available : Bool
deriving BEq, DecidableEq, Repr

/-- Model of `DockerManager.get_registry_status`
(src/utils/docker_utils.py:212-229).  Note the URL is composed from
the literal `localhost`, not from the configured host, and in dry-run
mode `docker_available` is `True` with no probe at all. -/
def getRegistryStatus (dryRun : Bool) (w : EnvOracle) (cfg : Config)
    (s : ExecState) : RegistryStatus × ExecState :=
  let name := cfg.registry_name
  let port := cfg.registry_port
  let r1 := isRegistryRunning dryRun w cfg (some name) s
  let r2 := isRegistryHealthy dryRun w cfg (some port) r1.2
  let r3 := if !dryRun then checkDockerAvailable dryRun w r2.2 else (true, r2.2)
  (⟨name, port, "http://localhost:" ++ toString port, r1.1, r2.1, r3.1⟩, r3.2)

/-- Model of `OCMClient.check_ocm_available` (src/utils/ocm_utils.py:32-50):
`command_exists('ocm')`, then `ocm version` with `check=True`; a raised
error is caught and yields `False`. -/
def checkOcmAvailable (dryRun : Bool) (w : EnvOracle) (s : ExecState) :
    Bool × ExecState :=
  if !w.pathHas "ocm" then (false, s)
  else
    match CommandRunner.run dryRun w.sys true ["ocm", "version"] s with
    | (.ok _, s') => (true, s')
    | (.raised _ _ _, s') => (false, s')

/-- Model of `OCMClient.get_version` (src/utils/ocm_utils.py:52-63). -/
def ocmGetVersion (dryRun : Bool) (w : EnvOracle) (s : ExecState) :
    Option String × ExecState :=
  match CommandRunner.run dryRun w.sys true ["ocm", "version"] s with
  | (.ok cp, s') => (some (pyStrip cp.stdout), s')
  | (.raised _ _ _, s') => (none, s')

/-- Dictionary lookup with default, `d.get(k, default)`. -/
def lookupD (l : List (String × Bool)) (k : String) (d : Bool) : Bool :=
  match l.lookup k with
  | some v => v
  | none => d

/-- Model of `EnvironmentManager.check_prerequisites`
(src/core/environment.py:39-64): the fixed six-tool availability
mapping, built in source order. -/
def checkPrerequisites (dryRun : Bool) (w : EnvOracle) (s : ExecState) :
    List (String × Bool) × ExecState :=
  let d := checkDockerAvailable dryRun w s
  let o := checkOcmAvailable dryRun w d.2
  ([("docker", d.1), ("ocm", o.1), ("curl", w.pathHas "curl"),
    ("kubectl", w.pathHas "kubectl"), ("kind", w.pathHas "kind"),
    ("git", w.pathHas "git")], o.2)

/-- The release-metadata endpoint (src/core/environment.py:169). -/
def apiUrl : String :=
  "https://api.github.com/repos/open-component-model/ocm/releases/latest"

/-- Model of `EnvironmentManager._download_and_install_ocm`
(src/core/environment.py:157-227).  The metadata fetch, asset
selection, download into a temp file and `makedirs` all happen
regardless of dry-run; only the `os.rename`/`os.chmod` placement is
suppressed in dry-run mode.  The final re-probe succeeds when `ocm` is
on the path or dry-run is set.  Any failure along the way is caught and
yields `False`. -/
def downloadAndInstallOcm (dryRun : Bool) (w : EnvOracle)
    (osName arch : String) (s : ExecState) : Bool × ExecState :=
  let s1 := s.eff (.urlopen apiUrl)
  match w.net apiUrl with
  | .error _ => (false, s1)
  | .ok rel =>
      let binaryName := "ocm-" ++ rel.tag_name ++ "-" ++ osName ++ "-" ++ arch
        ++ (if osName == "windows" then ".exe" else "")
      match rel.assets.find? (fun a => strContains a.name binaryName) with
      | none => (false, s1)
      | some asset =>
          let s2 := (s1.eff (.fileWrite w.tmpPath)).eff (.urlopen asset.browser_download_url)
          match w.fetch asset.browser_download_url with
          | .error _ => (false, s2)
          | .ok _ =>
              let s3 := s2.eff (.makedirs w.installDir)
              let binName := "ocm" ++ (if osName == "windows" then ".exe" else "")
              let installPath := w.installDir ++ "/" ++ binName
              let s4 :=
                if dryRun then s3
                else (s3.eff (.rename w.tmpPath installPath)).eff (.chmod installPath)
              if w.pathHas "ocm" || dryRun then (true, s4) else (false, s4)

/-- Model of `EnvironmentManager.install_ocm_cli`
(src/core/environment.py:112-155): idempotent fast path when `ocm` is
already on the path, then architecture and OS normalization with hard
failures outside the supported matrix, then the download/install
step. -/
def installOcmCli (dryRun : Bool) (w : EnvOracle) (s : ExecState) :
    Bool × ExecState :=
  if w.pathHas "ocm" then (true, s)
  else
    let archMapped : Option String :=
      if w.arch == "x86_64" || w.arch == "amd64" then some "amd64"
      else if w.arch == "arm64" || w.arch == "aarch64" then some "arm64"
      else none
    match archMapped with
    | none => (false, s)
    | some arch =>
        if w.osName == "darwin" || w.osName == "linux" || w.osName == "windows" then
          downloadAndInstallOcm dryRun w w.osName arch s
        else (false, s)

/-- Model of `EnvironmentManager.setup_environment`
(src/core/environment.py:66-110): check prerequisites; when requested
and `ocm` is missing, attempt the managed install (other missing tools
only produce hints); when the container engine is available, start the
registry (an error escaping `start_registry` escapes here too);
overall success is the accumulated boolean. -/
def setupEnvironment (dryRun : Bool) (w : EnvOracle) (cfg : Config)
    (installMissing : Bool) (s : ExecState) : Except PyErr Bool × ExecState :=
  let pr := checkPrerequisites dryRun w s
  let step1 : Bool × ExecState :=
    if installMissing then
      if !(lookupD pr.1 "ocm" false) then installOcmCli dryRun w pr.2
      else (true, pr.2)
    else (true, pr.2)
  if lookupD pr.1 "docker" false then
    match startRegistry dryRun w cfg none none step1.2 with
    | (.ok b, s3) => (.ok (step1.1 && b), s3)
    | (.error e, s3) => (.error e, s3)
  else (.ok step1.1, step1.2)

/-- The environment status record (src/core/environment.py:312-317). -/
structure EnvStatus where
  prerequisites : List (String × Bool)
  registry : RegistryStatus
  ocm_version : Option String
  ready : Bool
deriving BEq, DecidableEq, Repr

/-- Model of `EnvironmentManager.get_environment_status`
(src/core/environment.py:302-317): `ready` is
`all(prerequisites.values()) and registry_status.get('running', False)`. -/
def getEnvironmentStatus (dryRun : Bool) (w : EnvOracle) (cfg : Config)
    (s : ExecState) : EnvStatus × ExecState :=
  let pr := checkPrerequisites dryRun w s
  let reg := getRegistryStatus dryRun w cfg pr.2
  let ver := ocmGetVersion dryRun w reg.2
  (⟨pr.1, reg.1, ver.1, pr.1.all (fun p => p.2) && reg.1.running⟩, ver.2)

/-- One entry of a directory listing, as `Path.iterdir` yields it. -/
structure DirEntry where
  name : String
  isDir : Bool
deriving BEq, DecidableEq, Repr

/-- Model of `DemoRunner.list_available_examples` (src/core/demo.py:152-165):
collect the names of directory entries that are directories and do not
start with `.`, then return them sorted ascending.  Python `sorted` is
modelled by insertion sort: over the linear order on strings the sorted
rearrangement is unique, so any correct sort is a faithful model. -/
def listAvailableExamples (dirPresent : Bool) (entries : List DirEntry) :
    List String :=
  let examples :=
    if dirPresent then
      entries.foldl
        (fun acc item =>
          if item.isDir && !(pyStartsWith item.name ".") then acc ++ [item.name]
          else acc) []
    else []
  sortedPy examples

/-!
Concrete worlds used by counterexamples and witnesses.
-/

/-- A world in which every command completes with exit code 1, nothing
is on the search path and the network is unreachable. -/
def wNone : EnvOracle :=
  ⟨fun _ _ => .completed 1 "" "", fun _ => false, fun _ => .error "unreachable",
   fun _ => .error "unreachable", "linux", "amd64", "/tmp/ocm-download",
   "/home/user/.local/bin"⟩

/-- Release metadata carrying exactly one matching linux/amd64 asset. -/
def relLinux : Release :=
  ⟨"v1.0.0", [⟨"ocm-v1.0.0-linux-amd64", "https://example.org/ocm-v1.0.0-linux-amd64"⟩]⟩

/-- A world in which the release endpoint and download both succeed. -/
def wRelease : EnvOracle :=
  ⟨fun _ _ => .completed 1 "" "", fun _ => false, fun _ => .ok relLinux,
   fun _ => .ok (), "linux", "amd64", "/tmp/ocm-download", "/home/user/.local/bin"⟩

/-- A world in which every docker command succeeds but the health probe
always fails with exit code 1. -/
def wProbeFails : EnvOracle :=
  ⟨fun _ cmd => if cmd = curlCmd 5001 then .completed 1 "" "" else .completed 0 "" "",
   fun _ => true, fun _ => .error "unreachable", fun _ => .error "unreachable",
   "linux", "amd64", "/tmp/ocm-download", "/home/user/.local/bin"⟩

/-- A world in which `docker ps` reports the container `local-registry`
as running. -/
def wRunning : EnvOracle :=
  ⟨fun _ _ => .completed 0 "local-registry" "", fun _ => true,
   fun _ => .error "unreachable", fun _ => .error "unreachable",
   "linux", "amd64", "/tmp/ocm-download", "/home/user/.local/bin"⟩

/-- The configuration of the spec example: host `example.com`, port
`8080`, other fields at their defaults. -/
def cfgHost : Config :=
  ⟨8080, "local-registry", "example.com", "ocm-demo", "ocm-demos", 300, none⟩

/-!
Helper lemmas about the Python `sorted` model.
-/

theorem perm_orderedInsertPy (x : String) :
    ∀ l : List String, (orderedInsertPy x l).Perm (x :: l)
  | [] => List.Perm.refl _
  | y :: ys => by
      by_cases h : pyLe x y
      · simp [orderedInsertPy, h]
      · simp only [orderedInsertPy, if_neg h]
        exact ((perm_orderedInsertPy x ys).cons y).trans (List.Perm.swap x y ys)

theorem perm_sortedPy : ∀ l : List String, (sortedPy l).Perm l
  | [] => List.Perm.refl _
  | x :: xs => (perm_orderedInsertPy x (sortedPy xs)).trans ((perm_sortedPy xs).cons x)

theorem charsLe_total : ∀ x y : List Char, charsLe x y = true ∨ charsLe y x = true
  | [], _ => .inl rfl
  | _ :: _, [] => .inr rfl
  | a :: xs, b :: ys => by
      rcases lt_trichotomy a b with h | h | h
      · left; simp [charsLe, h]
      · subst h
        rcases charsLe_total xs ys with ih | ih
        · left; simp [charsLe, ih]
        · right; simp [charsLe, ih]
      · right; simp [charsLe, h]

theorem charsLe_trans :
    ∀ {x y z : List Char}, charsLe x y = true → charsLe y z = true → charsLe x z = true
  | [], _, _, _, _ => rfl
  | _ :: _, [], _, h, _ => by simp [charsLe] at h
  | _ :: _, _ :: _, [], _, h => by simp [charsLe] at h
  | a :: xs, b :: ys, c :: zs, h1, h2 => by
      simp only [charsLe] at h1 h2 ⊢
      rcases lt_trichotomy a b with hab | hab | hab
      · rcases lt_trichotomy b c with hbc | hbc | hbc
        · simp [lt_trans hab hbc]
        · subst hbc; simp [hab]
        · rw [if_neg (lt_asymm hbc), if_neg (ne_of_gt hbc)] at h2
          exact absurd h2 (by simp)
      · subst hab
        rw [if_neg (lt_irrefl a), if_pos rfl] at h1
        rcases lt_trichotomy a c with hac | hac | hac
        · simp [hac]
        · subst hac
          rw [if_neg (lt_irrefl a), if_pos rfl] at h2 ⊢
          exact charsLe_trans h1 h2
        · rw [if_neg (lt_asymm hac), if_neg (ne_of_gt hac)] at h2
          exact absurd h2 (by simp)
      · rw [if_neg (lt_asymm hab), if_neg (ne_of_gt hab)] at h1
        exact absurd h1 (by simp)

theorem pyLe_total (a b : String) : pyLe a b = true ∨ pyLe b a = true :=
  charsLe_total a.data b.data

theorem pyLe_trans {a b c : String} (h1 : pyLe a b = true) (h2 : pyLe b c = true) :
    pyLe a c = true :=
  charsLe_trans h1 h2

theorem pairwise_orderedInsertPy (x : String) (l : List String)
    (h : l.Pairwise (fun a b => pyLe a b = true)) :
    (orderedInsertPy x l).Pairwise (fun a b => pyLe a b = true) := by
  induction l with
  | nil => simp [orderedInsertPy]
  | cons y ys ih =>
      rw [List.pairwise_cons] at h
      by_cases hle : pyLe x y
      · rw [orderedInsertPy, if_pos hle, List.pairwise_cons]
        refine ⟨?_, List.pairwise_cons.mpr h⟩
        intro z hz
        rcases List.mem_cons.mp hz with rfl | hz
        · exact hle
        · exact pyLe_trans hle (h.1 z hz)
      · rw [orderedInsertPy, if_neg hle, List.pairwise_cons]
        refine ⟨?_, ih h.2⟩
        intro z hz
        rcases List.mem_cons.mp ((perm_orderedInsertPy x ys).mem_iff.mp hz) with h' | hz2
        · rw [h']; exact (pyLe_total x y).resolve_left hle
        · exact h.1 z hz2

theorem pairwise_sortedPy : ∀ l : List String,
    (sortedPy l).Pairwise (fun a b => pyLe a b = true)
  | [] => List.Pairwise.nil
  | x :: xs => pairwise_orderedInsertPy x _ (pairwise_sortedPy xs)

theorem foldl_append_names (p : DirEntry → Bool) :
    ∀ (entries : List DirEntry) (init : List String),
      entries.foldl (fun acc item => if p item then acc ++ [item.name] else acc) init =
        init ++ (entries.filter p).map (fun e => e.name)
  | [], init => by simp
  | e :: es, init => by
      by_cases hp : p e <;>
        simp [hp, foldl_append_names p es, List.filter_cons]

/-- The default configuration (src/utils/config.py:10-27). -/
def cfgDefault : Config :=
  ⟨5001, "local-registry", "localhost", "ocm-demo", "ocm-demos", 300, none⟩

/-- Test that a health-probe outcome is not a success: the probe
completed with a non-zero exit code, or the probe program was not
found. -/
def probeFailed : ExecOutcome → Bool
  | .completed rc _ _ => rc != 0
  | .notFound _ => true

/-- An unhealthy probe: a single probe step fails and appends exactly
one probe execution to the trace. -/
theorem isRegistryHealthy_failed (w : EnvOracle) (cfg : Config) (port : Nat)
    (s : ExecState) (hport : port ≠ 0)
    (hp : probeFailed (w.sys s.clock (curlCmd port)) = true) :
    isRegistryHealthy false w cfg (some port) s =
      (false, ⟨s.clock + 1, s.trace ++ [.execProc (curlCmd port)]⟩) := by
  unfold isRegistryHealthy
  simp only [pyOrNat, if_neg hport]
  cases h : w.sys s.clock (curlCmd port) with
  | completed rc out err =>
      rw [h] at hp
      simp only [probeFailed, bne_iff_ne, ne_eq] at hp
      simp [CommandRunner.run, h, hp]
  | notFound msg => simp [CommandRunner.run, h]

/-- If the probe never succeeds, the health-poll loop runs all its
attempts — one probe and one one-second sleep per attempt — and
returns failure. -/
theorem healthWait_never_healthy (w : EnvOracle) (cfg : Config) (port : Nat)
    (hport : port ≠ 0)
    (hprobe : ∀ t, probeFailed (w.sys t (curlCmd port)) = true) :
    ∀ (n : Nat) (s : ExecState),
      healthWait false w cfg port n s =
        (false, ⟨s.clock + n,
          s.trace ++ (List.replicate n
            [Effect.execProc (curlCmd port), Effect.sleep 1]).flatten⟩)
  | 0, s => by simp [healthWait]
  | n + 1, s => by
      rw [healthWait, isRegistryHealthy_failed w cfg port s hport (hprobe s.clock)]
      simp only [Bool.false_eq_true, if_false, ExecState.eff,
        healthWait_never_healthy w cfg port hport hprobe n]
      refine congrArg _ ?_
      refine congrArg₂ _ (by omega) ?_
      simp [List.replicate_succ]

/-- An empty `docker ps` listing never contains a non-empty name, so
`is_registry_running` answers no after the single listing query. -/
theorem isRegistryRunning_not_listed (w : EnvOracle) (cfg : Config)
    (name : String) (s : ExecState) (hname : name ≠ "")
    (h : w.sys s.clock psNamesCmd = .completed 0 "" "") :
    isRegistryRunning false w cfg (some name) s =
      (false, ⟨s.clock + 1, s.trace ++ [.execProc psNamesCmd]⟩) := by
  unfold isRegistryRunning
  simp only [pyOrStr, if_neg hname]
  have hbe : (name == "") = false := beq_eq_false_iff_ne.mpr hname
  simp [CommandRunner.run, h, List.contains, List.elem, hname, pyStrip, pySplitOn,
    splitOnChar, hbe]

/-- A `docker ps` listing that does contain the queried name makes
`is_registry_running` answer yes after the single listing query. -/
theorem isRegistryRunning_listed (w : EnvOracle) (cfg : Config)
    (name out : String) (s : ExecState) (hname : name ≠ "")
    (h1 : w.sys s.clock psNamesCmd = .completed 0 out "")
    (h2 : (pySplitOn (pyStrip out) '\n').contains name = true) :
    isRegistryRunning false w cfg (some name) s =
      (true, ⟨s.clock + 1, s.trace ++ [.execProc psNamesCmd]⟩) := by
  unfold isRegistryRunning
  simp only [pyOrStr, if_neg hname]
  simp [CommandRunner.run, h1]
  exact List.elem_iff.mp h2

/-- An empty port listing makes `cleanup_registry_port` a no-op beyond
its single listing query. -/
theorem cleanupRegistryPort_empty (w : EnvOracle) (port : Nat) (s : ExecState)
    (h : w.sys s.clock (psPortCmd port) = .completed 0 "" "") :
    cleanupRegistryPort false w port s =
      ⟨s.clock + 1, s.trace ++ [.execProc (psPortCmd port)]⟩ := by
  unfold cleanupRegistryPort
  simp [CommandRunner.run, h, pyStrip]

/-!
Claim theorems.
-/

/-- Is an effect part of binary placement (the `os.rename`/`os.chmod`
step of the installer)? -/
def placementEffect : Effect → Bool
  | .rename _ _ => true
  | .chmod _ => true
  | _ => false

/-- C1 counterexample: with the dry-run flag set and a reachable
release endpoint, the installer download step still performs the
network download of the asset and writes the temporary file — and
reports success.  So dry-run does not suppress the download step's
external effects. -/
theorem dry_run_installer_still_downloads :
    (downloadAndInstallOcm true wRelease "linux" "amd64" ⟨0, []⟩).1 = true ∧
    (downloadAndInstallOcm true wRelease "linux" "amd64" ⟨0, []⟩).2.trace.contains
        (.urlopen "https://example.org/ocm-v1.0.0-linux-amd64") = true ∧
    (downloadAndInstallOcm true wRelease "linux" "amd64" ⟨0, []⟩).2.trace.contains
        (.fileWrite "/tmp/ocm-download") = true :=
  ⟨rfl, rfl, rfl⟩

/-- C1 (amended): with the dry-run flag set, the process runner
executes no subprocess and returns a synthetic success, registry start
and stop perform no external effect at all and return success, and the
installer download step suppresses only the binary placement (rename
and chmod) — its metadata query, asset download, temp-file write and
directory creation still happen. -/
theorem dry_run_suppression (w : EnvOracle) (cfg : Config) (s : ExecState)
    (check : Bool) (cmd : List String) (portArg : Option Nat)
    (nameArg : Option String) (osName arch : String) :
    CommandRunner.run true w.sys check cmd s = (.ok ⟨cmd, 0, "", ""⟩, s) ∧
    startRegistry true w cfg portArg nameArg s = (.ok true, s) ∧
    stopRegistry true w cfg nameArg s = (true, s) ∧
    (downloadAndInstallOcm true w osName arch s).2.trace.filter placementEffect =
      s.trace.filter placementEffect := by
  refine ⟨rfl, ?_, rfl, ?_⟩
  · simp only [startRegistry]
    split
    · rfl
    · rfl
  · unfold downloadAndInstallOcm
    cases hnet : w.net apiUrl with
    | error e => simp [ExecState.eff, List.filter_append, placementEffect]
    | ok rel =>
        cases hfind : rel.assets.find? (fun a =>
            strContains a.name ("ocm-" ++ rel.tag_name ++ "-" ++ osName ++ "-" ++ arch
              ++ (if osName == "windows" then ".exe" else ""))) with
        | none =>
            simp only [hfind]
            simp [ExecState.eff, List.filter_append, placementEffect]
        | some asset =>
            simp only [hfind]
            cases hfetch : w.fetch asset.browser_download_url with
            | error e =>
                simp only [hfetch]
                simp [ExecState.eff, List.filter_append, placementEffect]
            | ok u =>
                simp only [hfetch]
                simp [ExecState.eff, List.filter_append, placementEffect]

/-- C2: the `ready` field of the environment status is true exactly
when every value in the prerequisite mapping is true and the registry
status's `running` flag is true; any single false value forces it to
false. -/
theorem env_status_ready_iff (dryRun : Bool) (w : EnvOracle) (cfg : Config)
    (s : ExecState) :
    (getEnvironmentStatus dryRun w cfg s).1.ready = true ↔
      ((∀ p ∈ (getEnvironmentStatus dryRun w cfg s).1.prerequisites, p.2 = true) ∧
        (getEnvironmentStatus dryRun w cfg s).1.registry.running = true) := by
  simp [getEnvironmentStatus, List.all_eq_true]

/-- C7: the success flag of `setup_environment` is characterized by
exactly the two fatal steps: it is false precisely when the managed
CLI install was attempted (install requested and `ocm` missing) and
failed, or the container engine was available and the registry start
failed.  The availability of the other four tools does not appear in
the formula at all, so missing tools other than the managed CLI never
make the result false. -/
theorem setup_environment_success_characterization (dryRun : Bool)
    (w : EnvOracle) (cfg : Config) (im : Bool) (s : ExecState) :
    setupEnvironment dryRun w cfg im s =
      (let pr := checkPrerequisites dryRun w s
       let attempted := im && !(lookupD pr.1 "ocm" false)
       let dockerPre := lookupD pr.1 "docker" false
       let inst := if attempted then installOcmCli dryRun w pr.2 else (true, pr.2)
       match (if dockerPre then startRegistry dryRun w cfg none none inst.2
              else (.ok true, inst.2)) with
       | (.ok b, s3) =>
           (.ok (!((attempted && !inst.1) || (dockerPre && !b))), s3)
       | (.error e, s3) => (.error e, s3)) := by
  unfold setupEnvironment
  cases him : im <;>
    cases hocm : lookupD (checkPrerequisites dryRun w s).1 "ocm" false <;>
      cases hdock : lookupD (checkPrerequisites dryRun w s).1 "docker" false <;>
        simp [him, hocm, hdock]

/-- C3: when the named container is not running, cleanup finds nothing,
the launch succeeds, and the health probe never reports success,
`start_registry` performs exactly 30 health-check attempts, each
followed by a one-second sleep, and then returns failure — neither
fewer attempts nor an unbounded loop. -/
theorem start_registry_health_poll_bound (w : EnvOracle) (cfg : Config)
    (port : Nat) (name : String) (s : ExecState)
    (hport : port ≠ 0) (hname : name ≠ "")
    (h1 : ∀ t, w.sys t psNamesCmd = .completed 0 "" "")
    (h2 : ∀ t, w.sys t (psPortCmd port) = .completed 0 "" "")
    (h3 : ∀ t, w.sys t ["docker", "rm", "-f", name] = .completed 0 "" "")
    (h4 : ∀ t, w.sys t (dockerRunCmd port name) = .completed 0 "" "")
    (h5 : ∀ t, probeFailed (w.sys t (curlCmd port)) = true) :
    startRegistry false w cfg (some port) (some name) s =
      (.ok false, ⟨s.clock + 34,
        s.trace ++
          [Effect.execProc psNamesCmd, Effect.execProc (psPortCmd port),
           Effect.execProc ["docker", "rm", "-f", name],
           Effect.execProc (dockerRunCmd port name)] ++
          (List.replicate 30
            [Effect.execProc (curlCmd port), Effect.sleep 1]).flatten⟩) := by
  unfold startRegistry
  simp only [pyOrNat, if_neg hport, pyOrStr, if_neg hname]
  rw [isRegistryRunning_not_listed w cfg name s hname (h1 s.clock)]
  simp only [Bool.false_eq_true, if_false]
  rw [cleanupRegistryPort_empty w port _ (h2 _)]
  have hrm : CommandRunner.run false w.sys false ["docker", "rm", "-f", name]
      (⟨s.clock + 2, (s.trace ++ [Effect.execProc psNamesCmd]) ++
        [Effect.execProc (psPortCmd port)]⟩ : ExecState) =
      (.ok ⟨["docker", "rm", "-f", name], 0, "", ""⟩,
        ⟨s.clock + 3, ((s.trace ++ [Effect.execProc psNamesCmd]) ++
          [Effect.execProc (psPortCmd port)]) ++
          [Effect.execProc ["docker", "rm", "-f", name]]⟩) := by
    simp [CommandRunner.run, h3]
  have hlaunch : CommandRunner.run false w.sys true (dockerRunCmd port name)
      (⟨s.clock + 3, (((s.trace ++ [Effect.execProc psNamesCmd]) ++
          [Effect.execProc (psPortCmd port)]) ++
          [Effect.execProc ["docker", "rm", "-f", name]])⟩ : ExecState) =
      (.ok ⟨dockerRunCmd port name, 0, "", ""⟩,
        ⟨s.clock + 4, ((((s.trace ++ [Effect.execProc psNamesCmd]) ++
          [Effect.execProc (psPortCmd port)]) ++
          [Effect.execProc ["docker", "rm", "-f", name]]) ++
          [Effect.execProc (dockerRunCmd port name)])⟩) := by
    simp [CommandRunner.run, h4]
  simp only [hrm, hlaunch, beq_self_eq_true, if_true,
    healthWait_never_healthy w cfg port hport h5]
  refine congrArg _ ?_
  refine congrArg₂ _ (by omega) ?_
  simp [List.append_assoc]

/-- Witness for C3: in the concrete world where every docker command
succeeds and the probe always exits 1, starting on port 5001 yields
failure after the four setup commands plus exactly 30 probe/sleep
pairs. -/
theorem start_registry_health_poll_bound_witness :
    startRegistry false wProbeFails cfgDefault (some 5001) (some "local-registry")
        ⟨0, []⟩ =
      (.ok false, ⟨34,
        [Effect.execProc psNamesCmd, Effect.execProc (psPortCmd 5001),
         Effect.execProc ["docker", "rm", "-f", "local-registry"],
         Effect.execProc (dockerRunCmd 5001 "local-registry")] ++
        (List.replicate 30
          [Effect.execProc (curlCmd 5001), Effect.sleep 1]).flatten⟩) :=
  start_registry_health_poll_bound wProbeFails cfgDefault 5001 "local-registry"
    ⟨0, []⟩ (by decide) (by decide)
    (fun _ => rfl) (fun _ => rfl) (fun _ => rfl) (fun _ => rfl) (fun _ => rfl)

/-- C4: if the named container is reported running (as it is after a
successful first start), a further `start_registry` call with the same
arguments observes this, returns success, and performs nothing beyond
the single listing query — no port cleanup, no force-remove, no
container launch. -/
theorem start_registry_idempotent (w : EnvOracle) (cfg : Config)
    (portArg : Option Nat) (name out : String) (s : ExecState)
    (hname : name ≠ "")
    (h1 : w.sys s.clock psNamesCmd = .completed 0 out "")
    (h2 : (pySplitOn (pyStrip out) '\n').contains name = true) :
    startRegistry false w cfg portArg (some name) s =
      (.ok true, ⟨s.clock + 1, s.trace ++ [.execProc psNamesCmd]⟩) := by
  unfold startRegistry
  simp only [pyOrStr, if_neg hname,
    isRegistryRunning_listed w cfg name out s hname h1 h2, if_true]

/-- Witness for C4: in the concrete world where `docker ps` lists
`local-registry`, a second start on the same port and name returns
success after only the listing query. -/
theorem start_registry_idempotent_witness :
    startRegistry false wRunning cfgDefault (some 5001) (some "local-registry")
        ⟨0, []⟩ =
      (.ok true, ⟨1, [.execProc psNamesCmd]⟩) :=
  start_registry_idempotent wRunning cfgDefault (some 5001) "local-registry"
    "local-registry" ⟨0, []⟩ (by decide) rfl rfl

/-- C5 counterexample: with host `example.com` and port `8080`, the URL
field of the registry status record is `http://localhost:8080`; it does
not mention the configured host at all, while `Config.registry_url`
does compose `example.com:8080`.  So the status record's URL does not
reflect the configured host. -/
theorem registry_status_url_ignores_host :
    (getRegistryStatus true wNone cfgHost ⟨0, []⟩).1.url = "http://localhost:8080" ∧
    strContains (getRegistryStatus true wNone cfgHost ⟨0, []⟩).1.url "example.com" = false ∧
    Config.registry_url cfgHost = "example.com:8080" :=
  ⟨rfl, rfl, rfl⟩

/-- C5 (amended): `Config.registry_url` is composed from the configured
host and port as `<host>:<port>` (so `example.com` and `8080` give
`example.com:8080`), but the URL exposed in the registry status record
is `http://localhost:<port>` for every configuration — it does not
reflect the configured host. -/
theorem registry_url_composition (cfg : Config) (dryRun : Bool)
    (w : EnvOracle) (s : ExecState) :
    cfg.registry_url = cfg.registry_host ++ ":" ++ toString cfg.registry_port ∧
    Config.registry_url cfgHost = "example.com:8080" ∧
    (getRegistryStatus dryRun w cfg s).1.url =
      "http://localhost:" ++ toString cfg.registry_port :=
  ⟨rfl, rfl, rfl⟩

/-- C6: whenever the named program cannot be located (the subprocess
oracle reports not-found), `CommandRunner.run` reports a raised
`CalledProcessError` carrying exit code 127 and the original message —
for every value of the `check` flag, so also at call sites configured
not to raise on non-zero exit codes. -/
theorem run_not_found_exit_127 (sys : Sys) (check : Bool) (cmd : List String)
    (s : ExecState) (msg : String) (h : sys s.clock cmd = .notFound msg) :
    CommandRunner.run false sys check cmd s =
      (.raised 127 cmd msg, ⟨s.clock + 1, s.trace ++ [.execProc cmd]⟩) := by
  simp [CommandRunner.run, h]

/-- Witness for C6: a concrete world in which the program is absent and
`check` is `False`; the outcome is the raised not-found condition with
exit code 127. -/
theorem run_not_found_exit_127_witness :
    CommandRunner.run false (fun _ _ => .notFound "no such file") false
        ["definitely-absent"] ⟨0, []⟩ =
      (.raised 127 ["definitely-absent"] "no such file",
        ⟨1, [.execProc ["definitely-absent"]]⟩) :=
  run_not_found_exit_127 (fun _ _ => .notFound "no such file") false
    ["definitely-absent"] ⟨0, []⟩ "no such file" rfl

/-- C8: `list_available_examples` returns exactly the names of the
subdirectory entries whose names do not begin with `.` — as a list,
a permutation of the filtered names that is sorted ascending by the
code-point order on strings — and on the spec's example listing
(`01-basic`, `02-transport`, `.hidden`) it returns exactly
`["01-basic", "02-transport"]`. -/
theorem list_available_examples_spec :
    (∀ entries : List DirEntry,
        (listAvailableExamples true entries).Perm
            (((entries.filter fun e => e.isDir && !(pyStartsWith e.name ".")).map
              fun e => e.name)) ∧
        (listAvailableExamples true entries).Pairwise (fun a b => pyLe a b = true)) ∧
    listAvailableExamples true
        [⟨"01-basic", true⟩, ⟨"02-transport", true⟩, ⟨".hidden", true⟩] =
      ["01-basic", "02-transport"] := by
  refine ⟨fun entries => ⟨?_, ?_⟩, rfl⟩
  · show (sortedPy _).Perm _
    rw [foldl_append_names]
    simpa using perm_sortedPy _
  · exact pairwise_sortedPy _

/-- C9: in dry-run mode the registry status reports the container
engine as available unconditionally — for every world, including one
where `docker` is absent from the search path — and performs no probe
at all (the execution state is untouched). -/
theorem dry_run_status_docker_available (w : EnvOracle) (cfg : Config) (s : ExecState) :
    (getRegistryStatus true w cfg s).1.docker_available = true ∧
    (getRegistryStatus true w cfg s).2 = s :=
  ⟨rfl, rfl⟩

/-- C10 counterexample: a command that the system itself completes with
exit status 127 (as a shell does for an unknown command name) passes
127 straight through `run_with_output`, so exit code 127 can be
observed at this interface. -/
theorem run_with_output_127_passthrough :
    (CommandRunner.runWithOutput false
        (fun _ _ => .completed 127 "" "sh: nope: command not found")
        ["sh", "-c", "nope"] ⟨0, []⟩).1 =
      (127, "", "sh: nope: command not found") :=
  rfl

/-- C10 (amended): `run_with_output` is total: for every world and
command it returns a triple.  A completed process passes its exit code
and streams through unchanged (so a program exiting 127 yields 127),
while the raised program-not-found condition is caught and mapped to
`(1, '', message)` — the synthesized not-found exit code 127 is never
observed at this interface. -/
theorem run_with_output_characterization (dryRun : Bool) (sys : Sys)
    (cmd : List String) (s : ExecState) :
    CommandRunner.runWithOutput dryRun sys cmd s =
      if dryRun then ((0, "", ""), s)
      else
        match sys s.clock cmd with
        | .completed rc out err =>
            ((rc, out, err), ⟨s.clock + 1, s.trace ++ [.execProc cmd]⟩)
        | .notFound _ =>
            ((1, "", cpeStr 127 cmd), ⟨s.clock + 1, s.trace ++ [.execProc cmd]⟩) := by
  cases dryRun with
  | true => rfl
  | false =>
      cases h : sys s.clock cmd <;>
        simp [CommandRunner.runWithOutput, CommandRunner.run, h]

end OcmDemo
